import Mathlib

/-!
Verification of the scaled-mm epilogue header
(`src/include/cutlass_extensions/epilogue/scaled_mm_epilogues_c3x.hpp`,
namespace `lightllm::c3x`).

The header defines four epilogue variants (`ScaledEpilogue`,
`ScaledEpilogueBias`, `ScaledEpilogueLs`, `ScaledEpilogueBiasLs`), each a
fixed CUTLASS `Sm90EVT` expression tree over broadcast-load descriptors,
together with a static `prepare_args` builder that turns `torch::Tensor`
operand handles into the nested `Arguments` block of that tree.

Shallow embedding choices:
- A `torch::Tensor` handle is a list of rationals (the buffer behind
  `data_ptr()`; `numel()` is its length) plus a `meta` field standing for
  every tensor attribute the header never reads (dtype, device, strides,
  and so on).
- Numeric elements are `ℚ`: the header computes in `float` with
  round-to-nearest only at narrowing conversions, and every property
  checked here is an exact algebraic identity, so conversion is modelled
  as exact.
- The argument structs keep the shape and field order of the source:
  `Sm90ColOrScalarBroadcast` / `Sm90RowOrScalarBroadcast` arguments are a
  data pointer plus the boolean written as `tensor.numel() != 1` at line
  59; plain `Sm90RowBroadcast` (bias, Ls) arguments are just the pointer
  (line 63).
- The evaluator (`Sm90EVT` / the broadcast loads / `Sm90Compute`) lives in
  CUTLASS and in `broadcast_load_epilogue_c3x.hpp`, which is not part of
  the sources here; evaluation functions are therefore modelled from the
  spec and marked as such.
-/

namespace lightllm
namespace c3x

/-- A `torch::Tensor` operand handle as this header sees it: the header
reads only `data_ptr()` (here `data`, the buffer contents) and `numel()`
(here `data.length`). `meta` stands for all other tensor attributes, which
the header never inspects. -/
structure Tensor where
  data : List ℚ
  meta : Nat
deriving DecidableEq

/-- `tensor.numel()`. -/
def Tensor.numel (t : Tensor) : Nat := t.data.length

/-- Handle on a buffer with default metadata. -/
def T (l : List ℚ) : Tensor := ⟨l, 0⟩

/-- Arguments of `Sm90ColOrScalarBroadcast` (the `ColOrScalarLoad`
descriptor, stride `<1,0,0>`: one value per output row, or a scalar).
Field order follows the brace-init at line 59: data pointer, then the
flag `tensor.numel() != 1` selecting vector mode. -/
structure ColOrScalarArgs where
  ptr : List ℚ
  not_scalar : Bool
deriving DecidableEq

/-- Arguments of `Sm90RowOrScalarBroadcast` (the `RowOrScalarLoad`
descriptor, stride `<0,1,0>`: one value per output column, or a scalar). -/
structure RowOrScalarArgs where
  ptr : List ℚ
  not_scalar : Bool
deriving DecidableEq

/-- Arguments of plain `Sm90RowBroadcast` (the `RowLoad` descriptor used
for bias and Ls, `EnableNullPtr = false`): only the data pointer is
captured (line 63); there is no scalar flag and no element-count field. -/
structure RowLoadArgs where
  ptr : List ℚ
deriving DecidableEq

/-- `args_from_tensor<Descriptor, T>` monomorphized at
`Descriptor = ColOrScalarLoad<T>`: the `if constexpr` branch at lines
57-59 returns `Arguments{data_ptr, tensor.numel() != 1}`. -/
def args_from_tensor_ColOrScalar (t : Tensor) : ColOrScalarArgs :=
  ⟨t.data, t.numel != 1⟩

/-- `args_from_tensor<Descriptor, T>` monomorphized at
`Descriptor = RowOrScalarLoad<T>`: same branch, lines 57-59. -/
def args_from_tensor_RowOrScalar (t : Tensor) : RowOrScalarArgs :=
  ⟨t.data, t.numel != 1⟩

/-- `args_from_tensor<Descriptor, T>` monomorphized at
`Descriptor = RowLoad<T>` (bias, Ls): the `else` branch at lines 60-64
returns `Arguments{data_ptr}` with no inspection of the element count. -/
def args_from_tensor_RowLoad (t : Tensor) : RowLoadArgs :=
  ⟨t.data⟩

/-- Modelled from the spec (the descriptor evaluator lives in
`broadcast_load_epilogue_c3x.hpp`, not among these sources): a
scalar-or-row-broadcast operand yields, at output row `i`, the element at
index `i` when in vector mode and the single stored value otherwise
(spec 4.1: scalar mode ignores the coordinate). -/
def ColOrScalarArgs.load (a : ColOrScalarArgs) (i : Nat) : ℚ :=
  if a.not_scalar then a.ptr.getD i 0 else a.ptr.getD 0 0

/-- Modelled from the spec: a scalar-or-column-broadcast operand yields,
at output column `j`, the element at index `j` in vector mode and the
single stored value in scalar mode. -/
def RowOrScalarArgs.load (a : RowOrScalarArgs) (j : Nat) : ℚ :=
  if a.not_scalar then a.ptr.getD j 0 else a.ptr.getD 0 0

/-- Modelled from the spec: a plain column-broadcast operand (bias, Ls)
is always indexed by the output column `j`. -/
def RowLoadArgs.load (a : RowLoadArgs) (j : Nat) : ℚ :=
  a.ptr.getD j 0

/-- Arguments of `EVTCompute0 = Sm90EVT<Compute0, ScaleB, Accum>`: the
inner node multiplying the accumulator by the B-scale. The accumulator
fetch (`Sm90AccFetch`) contributes no argument field. -/
structure EVTCompute0Args where
  b_args : RowOrScalarArgs
deriving DecidableEq

namespace ScaledEpilogue

/-- Arguments of `ScaledEpilogue::EVTCompute =
Sm90EVT<Compute1, ScaleA, EVTCompute0>` (lines 116-118). -/
structure ArgumentType where
  a_args : ColOrScalarArgs
  evt0_args : EVTCompute0Args
deriving DecidableEq

/-- `ScaledEpilogue::prepare_args` (lines 120-127). -/
def prepare_args (a_scales b_scales : Tensor) : ArgumentType :=
  let a_args := args_from_tensor_ColOrScalar a_scales
  let b_args := args_from_tensor_RowOrScalar b_scales
  ⟨a_args, ⟨b_args⟩⟩

/-- Modelled from the spec (the `Sm90EVT` evaluator is not among these
sources): evaluation of the `ScaledEpilogue` tree at coordinate `(i, j)`,
`D = scaleA · (scaleB · Acc)`, with the tree shape taken from
`EVTCompute` at lines 104-117. -/
def eval (args : ArgumentType) (acc : Nat → Nat → ℚ) (i j : Nat) : ℚ :=
  args.a_args.load i * (args.evt0_args.b_args.load j * acc i j)

end ScaledEpilogue

namespace ScaledEpilogueBias

/-- Arguments of `ScaledEpilogueBias::EVTCompute =
Sm90EVT<Compute1, ScaleA, EVTCompute0, Bias>` with `Compute1` a fused
multiply-add (lines 156-162). -/
structure ArgumentType where
  a_args : ColOrScalarArgs
  evt0_args : EVTCompute0Args
  bias_args : RowLoadArgs
deriving DecidableEq

/-- `ScaledEpilogueBias::prepare_args` (lines 165-174). -/
def prepare_args (a_scales b_scales bias : Tensor) : ArgumentType :=
  let a_args := args_from_tensor_ColOrScalar a_scales
  let b_args := args_from_tensor_RowOrScalar b_scales
  let bias_args := args_from_tensor_RowLoad bias
  ⟨a_args, ⟨b_args⟩, bias_args⟩

/-- Modelled from the spec: evaluation of the `ScaledEpilogueBias` tree,
`D = scaleA · (scaleB · Acc) + bias`, tree shape from lines 149-162. -/
def eval (args : ArgumentType) (acc : Nat → Nat → ℚ) (i j : Nat) : ℚ :=
  args.a_args.load i * (args.evt0_args.b_args.load j * acc i j)
    + args.bias_args.load j

end ScaledEpilogueBias

namespace ScaledEpilogueLs

/-- Arguments of `EVTCompute1 = Sm90EVT<Compute1, ScaleA, EVTCompute0>`
(lines 203-204). -/
structure EVTCompute1Args where
  a_args : ColOrScalarArgs
  evt0_args : EVTCompute0Args
deriving DecidableEq

/-- Arguments of `ScaledEpilogueLs::EVTCompute =
Sm90EVT<Compute2, Ls, EVTCompute1>` (lines 212-213). -/
structure ArgumentType where
  ls_args : RowLoadArgs
  evt1_args : EVTCompute1Args
deriving DecidableEq

/-- `ScaledEpilogueLs::prepare_args` (lines 216-226). -/
def prepare_args (a_scales b_scales ls : Tensor) : ArgumentType :=
  let a_args := args_from_tensor_ColOrScalar a_scales
  let b_args := args_from_tensor_RowOrScalar b_scales
  let ls_args := args_from_tensor_RowLoad ls
  ⟨ls_args, ⟨a_args, ⟨b_args⟩⟩⟩

/-- Modelled from the spec: evaluation of the `ScaledEpilogueLs` tree,
`D = L · (scaleA · (scaleB · Acc))`, tree shape from lines 192-213. -/
def eval (args : ArgumentType) (acc : Nat → Nat → ℚ) (i j : Nat) : ℚ :=
  args.ls_args.load j *
    (args.evt1_args.a_args.load i * (args.evt1_args.evt0_args.b_args.load j * acc i j))

end ScaledEpilogueLs

namespace ScaledEpilogueBiasLs

/-- Arguments of `EVTCompute1 = Sm90EVT<Compute1, ScaleA, EVTCompute0,
Bias>` with `Compute1` a fused multiply-add (lines 254-259). -/
structure EVTCompute1Args where
  a_args : ColOrScalarArgs
  evt0_args : EVTCompute0Args
  bias_args : RowLoadArgs
deriving DecidableEq

/-- Arguments of `ScaledEpilogueBiasLs::EVTCompute =
Sm90EVT<Compute2, Ls, EVTCompute1>` (lines 266-267). -/
structure ArgumentType where
  ls_args : RowLoadArgs
  evt1_args : EVTCompute1Args
deriving DecidableEq

/-- `ScaledEpilogueBiasLs::prepare_args` (lines 270-282). -/
def prepare_args (a_scales b_scales bias ls : Tensor) : ArgumentType :=
  let a_args := args_from_tensor_ColOrScalar a_scales
  let b_args := args_from_tensor_RowOrScalar b_scales
  let bias_args := args_from_tensor_RowLoad bias
  let ls_args := args_from_tensor_RowLoad ls
  ⟨ls_args, ⟨a_args, ⟨b_args⟩, bias_args⟩⟩

/-- Modelled from the spec: evaluation of the `ScaledEpilogueBiasLs`
tree, `D = L · (scaleA · (scaleB · Acc) + bias)`: the bias is added by
the multiply-add node `Compute1` before the outer multiply `Compute2`
applies `Ls` (tree shape from lines 247-267). -/
def eval (args : ArgumentType) (acc : Nat → Nat → ℚ) (i j : Nat) : ℚ :=
  args.ls_args.load j *
    (args.evt1_args.a_args.load i * (args.evt1_args.evt0_args.b_args.load j * acc i j)
      + args.evt1_args.bias_args.load j)

end ScaledEpilogueBiasLs

/-- The 2×2 accumulator tile `[[1,2],[3,4]]` of the spec's concrete
scenarios (out-of-range coordinates read 0). -/
def accTile : Nat → Nat → ℚ := fun i j =>
  (([[1, 2], [3, 4]].getD i []).getD j 0 : ℚ)

/-- A generic concrete tile used by witnesses: entry `(i, j)` is
`10·i + j + 1`. -/
def accQ : Nat → Nat → ℚ := fun i j => (10 * i + j + 1 : ℚ)

/-- Evaluation of `ScaledEpilogue` through `prepare_args` when both scale
tensors are in vector mode. -/
theorem scaled_eval_prepare_vec (ta tb : Tensor) (acc : Nat → Nat → ℚ)
    (i j : Nat) (ha : ta.numel ≠ 1) (hb : tb.numel ≠ 1) :
    ScaledEpilogue.eval (ScaledEpilogue.prepare_args ta tb) acc i j
      = ta.data.getD i 0 * (tb.data.getD j 0 * acc i j) := by
  simp [ScaledEpilogue.eval, ScaledEpilogue.prepare_args, args_from_tensor_ColOrScalar,
    args_from_tensor_RowOrScalar, ColOrScalarArgs.load, RowOrScalarArgs.load,
    bne_iff_ne, ha, hb]

/-- Evaluation of `ScaledEpilogueBias` through `prepare_args` when both
scale tensors are in vector mode. -/
theorem scaledBias_eval_prepare_vec (ta tb tbias : Tensor)
    (acc : Nat → Nat → ℚ) (i j : Nat) (ha : ta.numel ≠ 1) (hb : tb.numel ≠ 1) :
    ScaledEpilogueBias.eval (ScaledEpilogueBias.prepare_args ta tb tbias) acc i j
      = ta.data.getD i 0 * (tb.data.getD j 0 * acc i j) + tbias.data.getD j 0 := by
  simp [ScaledEpilogueBias.eval, ScaledEpilogueBias.prepare_args, args_from_tensor_ColOrScalar,
    args_from_tensor_RowOrScalar, args_from_tensor_RowLoad,
    ColOrScalarArgs.load, RowOrScalarArgs.load, RowLoadArgs.load,
    bne_iff_ne, ha, hb]

/-- Evaluation of `ScaledEpilogueLs` through `prepare_args` when both
scale tensors are in vector mode. -/
theorem scaledLs_eval_prepare_vec (ta tb tls : Tensor)
    (acc : Nat → Nat → ℚ) (i j : Nat) (ha : ta.numel ≠ 1) (hb : tb.numel ≠ 1) :
    ScaledEpilogueLs.eval (ScaledEpilogueLs.prepare_args ta tb tls) acc i j
      = tls.data.getD j 0 * (ta.data.getD i 0 * (tb.data.getD j 0 * acc i j)) := by
  simp [ScaledEpilogueLs.eval, ScaledEpilogueLs.prepare_args, args_from_tensor_ColOrScalar,
    args_from_tensor_RowOrScalar, args_from_tensor_RowLoad,
    ColOrScalarArgs.load, RowOrScalarArgs.load, RowLoadArgs.load,
    bne_iff_ne, ha, hb]

/-- Evaluation of `ScaledEpilogueBiasLs` through `prepare_args` when both
scale tensors are in vector mode. -/
theorem scaledBiasLs_eval_prepare_vec (ta tb tbias tls : Tensor)
    (acc : Nat → Nat → ℚ) (i j : Nat) (ha : ta.numel ≠ 1) (hb : tb.numel ≠ 1) :
    ScaledEpilogueBiasLs.eval (ScaledEpilogueBiasLs.prepare_args ta tb tbias tls) acc i j
      = tls.data.getD j 0 *
          (ta.data.getD i 0 * (tb.data.getD j 0 * acc i j) + tbias.data.getD j 0) := by
  simp [ScaledEpilogueBiasLs.eval, ScaledEpilogueBiasLs.prepare_args, args_from_tensor_ColOrScalar,
    args_from_tensor_RowOrScalar, args_from_tensor_RowLoad,
    ColOrScalarArgs.load, RowOrScalarArgs.load, RowLoadArgs.load,
    bne_iff_ne, ha, hb]

/-- Claim C1: for `ScaledEpilogueBiasLs` the evaluated output at every
coordinate is `D = L · (scaleA · (scaleB · Acc) + bias)`: B-scale is
applied to the accumulator first, then A-scale, then bias is added, and
the outer multiplier `L` is applied last, so the bias sits inside the
outer multiplication; moreover, with nonzero bias and multiplier ≠ 1 this
differs from `L · (scaleA · (scaleB · Acc)) + bias`, shown at
`Acc = 7`, `scaleA = 3`, `scaleB = 5`, `bias = 11`, `L = 2`
(`2·(3·(5·7) + 11) = 232 ≠ 221 = 2·(3·(5·7)) + 11`). -/
theorem scaledBiasLs_bias_inside_outer_multiplier :
    (∀ (ta tb tbias tls : Tensor) (acc : Nat → Nat → ℚ) (i j : Nat),
        ta.numel ≠ 1 → tb.numel ≠ 1 →
        ScaledEpilogueBiasLs.eval
            (ScaledEpilogueBiasLs.prepare_args ta tb tbias tls) acc i j
          = tls.data.getD j 0 *
              (ta.data.getD i 0 * (tb.data.getD j 0 * acc i j)
                + tbias.data.getD j 0))
    ∧ ScaledEpilogueBiasLs.eval
          (ScaledEpilogueBiasLs.prepare_args
            (T [3, 3]) (T [5, 5]) (T [11, 11]) (T [2, 2]))
          (fun _ _ => 7) 0 0
        ≠ 2 * (3 * (5 * 7)) + 11 := by
  constructor
  · intro ta tb tbias tls acc i j ha hb
    exact scaledBiasLs_eval_prepare_vec ta tb tbias tls acc i j ha hb
  · norm_num [ScaledEpilogueBiasLs.eval, ScaledEpilogueBiasLs.prepare_args,
      args_from_tensor_ColOrScalar, args_from_tensor_RowOrScalar,
      args_from_tensor_RowLoad, ColOrScalarArgs.load, RowOrScalarArgs.load,
      RowLoadArgs.load, T, Tensor.numel, List.getD]

/-- Witness for claim C1: the vector-mode formula instantiated at the
concrete operands of the distinguishing scenario. -/
theorem scaledBiasLs_bias_inside_outer_multiplier_witness :
    ScaledEpilogueBiasLs.eval
        (ScaledEpilogueBiasLs.prepare_args
          (T [3, 3]) (T [5, 5]) (T [11, 11]) (T [2, 2]))
        accQ 0 0
      = (T [2, 2]).data.getD 0 0 *
          ((T [3, 3]).data.getD 0 0 * ((T [5, 5]).data.getD 0 0 * accQ 0 0)
            + (T [11, 11]).data.getD 0 0) :=
  scaledBiasLs_bias_inside_outer_multiplier.1
    (T [3, 3]) (T [5, 5]) (T [11, 11]) (T [2, 2]) accQ 0 0
    (by decide) (by decide)

/-- Claim C3 counterexample: supplying a one-element (scalar) array for
the required per-channel bias operand of `ScaledEpilogueBias` is not
rejected: `prepare_args` silently accepts it and produces a
fully-populated argument block binding the one-element buffer as the bias
vector. -/
theorem scalar_bias_accepted_counterexample :
    ScaledEpilogueBias.prepare_args (T [2, 3]) (T [10, 100]) (T [7])
      = ⟨⟨[2, 3], true⟩, ⟨⟨[10, 100], true⟩⟩, ⟨[7]⟩⟩ := rfl

/-- Claim C3 amended: argument construction for the required-vector bias
and `Ls` operands performs no element-count inspection at all: for every
bias or `Ls` tensor, including one-element ones, `prepare_args` returns a
fully-populated argument block binding the operand's data pointer
directly. Scalar mode is excluded only structurally (the `RowLoad`
argument struct carries no scalar flag), so a one-element array is
silently accepted and treated as a vector; it is not rejected at
argument-build time. -/
theorem required_vector_operands_not_inspected :
    ∀ (ta tb tbias tls : Tensor),
      (ScaledEpilogueBias.prepare_args ta tb tbias).bias_args = ⟨tbias.data⟩
      ∧ (ScaledEpilogueLs.prepare_args ta tb tls).ls_args = ⟨tls.data⟩
      ∧ (ScaledEpilogueBiasLs.prepare_args ta tb tbias tls).evt1_args.bias_args
          = ⟨tbias.data⟩
      ∧ (ScaledEpilogueBiasLs.prepare_args ta tb tbias tls).ls_args
          = ⟨tls.data⟩ := by
  intro ta tb tbias tls
  refine ⟨rfl, rfl, rfl, rfl⟩

/-- Claim C5: the `Scaled` variant computes `D = scaleA · (scaleB · Acc)`
at every coordinate, and on accumulator tile `[[1,2],[3,4]]` with per-row
`scaleA = [2,3]` and per-column `scaleB = [10,100]` the output tile is
exactly `[[20,400],[90,1200]]`. -/
theorem scaled_formula_and_concrete_tile :
    (∀ (ta tb : Tensor) (acc : Nat → Nat → ℚ) (i j : Nat),
        ta.numel ≠ 1 → tb.numel ≠ 1 →
        ScaledEpilogue.eval (ScaledEpilogue.prepare_args ta tb) acc i j
          = ta.data.getD i 0 * (tb.data.getD j 0 * acc i j))
    ∧ (ScaledEpilogue.eval
          (ScaledEpilogue.prepare_args (T [2, 3]) (T [10, 100])) accTile 0 0 = 20
       ∧ ScaledEpilogue.eval
          (ScaledEpilogue.prepare_args (T [2, 3]) (T [10, 100])) accTile 0 1 = 400
       ∧ ScaledEpilogue.eval
          (ScaledEpilogue.prepare_args (T [2, 3]) (T [10, 100])) accTile 1 0 = 90
       ∧ ScaledEpilogue.eval
          (ScaledEpilogue.prepare_args (T [2, 3]) (T [10, 100])) accTile 1 1 = 1200) := by
  refine ⟨fun ta tb acc i j ha hb =>
    scaled_eval_prepare_vec ta tb acc i j ha hb, ?_, ?_, ?_, ?_⟩ <;>
    norm_num [ScaledEpilogue.eval, ScaledEpilogue.prepare_args,
      args_from_tensor_ColOrScalar, args_from_tensor_RowOrScalar,
      ColOrScalarArgs.load, RowOrScalarArgs.load, accTile, T, Tensor.numel,
      List.getD]

/-- Witness for claim C5: the vector-mode formula instantiated at the
spec's concrete scales. -/
theorem scaled_formula_and_concrete_tile_witness :
    ScaledEpilogue.eval
        (ScaledEpilogue.prepare_args (T [2, 3]) (T [10, 100])) accTile 1 1
      = (T [2, 3]).data.getD 1 0 * ((T [10, 100]).data.getD 1 0 * accTile 1 1) :=
  scaled_formula_and_concrete_tile.1 (T [2, 3]) (T [10, 100]) accTile 1 1
    (by decide) (by decide)

/-- Claim C9: the `ScaledBias` variant computes
`D = scaleA · (scaleB · Acc) + bias` at every coordinate, and on
accumulator tile `[[1,2],[3,4]]` with per-row `scaleA = [2,3]`,
per-column `scaleB = [10,100]` and per-column `bias = [1,1]` the output
tile is exactly `[[21,401],[91,1201]]`. -/
theorem scaledBias_formula_and_concrete_tile :
    (∀ (ta tb tbias : Tensor) (acc : Nat → Nat → ℚ) (i j : Nat),
        ta.numel ≠ 1 → tb.numel ≠ 1 →
        ScaledEpilogueBias.eval
            (ScaledEpilogueBias.prepare_args ta tb tbias) acc i j
          = ta.data.getD i 0 * (tb.data.getD j 0 * acc i j)
              + tbias.data.getD j 0)
    ∧ (ScaledEpilogueBias.eval
          (ScaledEpilogueBias.prepare_args (T [2, 3]) (T [10, 100]) (T [1, 1]))
          accTile 0 0 = 21
       ∧ ScaledEpilogueBias.eval
          (ScaledEpilogueBias.prepare_args (T [2, 3]) (T [10, 100]) (T [1, 1]))
          accTile 0 1 = 401
       ∧ ScaledEpilogueBias.eval
          (ScaledEpilogueBias.prepare_args (T [2, 3]) (T [10, 100]) (T [1, 1]))
          accTile 1 0 = 91
       ∧ ScaledEpilogueBias.eval
          (ScaledEpilogueBias.prepare_args (T [2, 3]) (T [10, 100]) (T [1, 1]))
          accTile 1 1 = 1201) := by
  refine ⟨fun ta tb tbias acc i j ha hb =>
    scaledBias_eval_prepare_vec ta tb tbias acc i j ha hb, ?_, ?_, ?_, ?_⟩ <;>
    norm_num [ScaledEpilogueBias.eval, ScaledEpilogueBias.prepare_args,
      args_from_tensor_ColOrScalar, args_from_tensor_RowOrScalar,
      args_from_tensor_RowLoad, ColOrScalarArgs.load, RowOrScalarArgs.load,
      RowLoadArgs.load, accTile, T, Tensor.numel, List.getD]

/-- Witness for claim C9: the vector-mode formula instantiated at the
spec's concrete operands. -/
theorem scaledBias_formula_and_concrete_tile_witness :
    ScaledEpilogueBias.eval
        (ScaledEpilogueBias.prepare_args (T [2, 3]) (T [10, 100]) (T [1, 1]))
        accTile 1 1
      = (T [2, 3]).data.getD 1 0 * ((T [10, 100]).data.getD 1 0 * accTile 1 1)
          + (T [1, 1]).data.getD 1 0 :=
  scaledBias_formula_and_concrete_tile.1 (T [2, 3]) (T [10, 100]) (T [1, 1])
    accTile 1 1 (by decide) (by decide)

/-- Claim C2: for the scale operands, argument construction inspects the
element count: count exactly 1 selects scalar mode (flag `false`, and the
resolved load yields the same value at every coordinate, regardless of
the coordinate), any other count selects vector mode (flag `true`), and
in both cases the data pointer is bound directly. -/
theorem scale_args_elementCount_dispatch :
    ∀ (t : Tensor),
      ((args_from_tensor_ColOrScalar t).ptr = t.data
        ∧ (args_from_tensor_RowOrScalar t).ptr = t.data)
      ∧ (t.numel = 1 →
          (args_from_tensor_ColOrScalar t).not_scalar = false
          ∧ (args_from_tensor_RowOrScalar t).not_scalar = false
          ∧ ∀ i i2 : Nat,
              (args_from_tensor_ColOrScalar t).load i
                = (args_from_tensor_ColOrScalar t).load i2
              ∧ (args_from_tensor_RowOrScalar t).load i
                = (args_from_tensor_RowOrScalar t).load i2)
      ∧ (t.numel ≠ 1 →
          (args_from_tensor_ColOrScalar t).not_scalar = true
          ∧ (args_from_tensor_RowOrScalar t).not_scalar = true) := by
  intro t
  refine ⟨⟨rfl, rfl⟩, fun h1 => ?_, fun h1 => ?_⟩
  · refine ⟨?_, ?_, fun i i2 => ⟨?_, ?_⟩⟩ <;>
      simp [args_from_tensor_ColOrScalar, args_from_tensor_RowOrScalar,
        ColOrScalarArgs.load, RowOrScalarArgs.load, h1]
  · constructor <;>
      simp [args_from_tensor_ColOrScalar, args_from_tensor_RowOrScalar,
        bne_iff_ne, h1]

/-- Witness for claim C2: a one-element array resolves to scalar mode and
broadcasts (coordinates 0 and 3 read the same value, although the
declared axis length exceeds 1); a three-element array resolves to vector
mode. -/
theorem scale_args_elementCount_dispatch_witness :
    ((args_from_tensor_ColOrScalar (T [5])).not_scalar = false
      ∧ (args_from_tensor_ColOrScalar (T [5])).load 0
          = (args_from_tensor_ColOrScalar (T [5])).load 3)
    ∧ (args_from_tensor_RowOrScalar (T [5, 6, 7])).not_scalar = true :=
  ⟨⟨((scale_args_elementCount_dispatch (T [5])).2.1 (by decide)).1,
    ((((scale_args_elementCount_dispatch (T [5])).2.1 (by decide)).2.2) 0 3).1⟩,
   ((scale_args_elementCount_dispatch (T [5, 6, 7])).2.2 (by decide)).2⟩

/-- Claim C4: with both scales in vector mode, changing a single entry
`i` of the per-row `scaleA` vector leaves every output row other than `i`
unchanged, and changing a single entry `j` of the per-column `scaleB`
vector leaves every output column other than `j` unchanged; the
orientation (A by row, B by column) is fixed by role. -/
theorem scale_single_entry_frame :
    ∀ (sa sb : List ℚ) (acc : Nat → Nat → ℚ) (v : ℚ) (i j i2 j2 : Nat),
      sa.length ≠ 1 → sb.length ≠ 1 →
      (i2 ≠ i →
        ScaledEpilogue.eval
            (ScaledEpilogue.prepare_args (T (sa.set i v)) (T sb)) acc i2 j2
          = ScaledEpilogue.eval
              (ScaledEpilogue.prepare_args (T sa) (T sb)) acc i2 j2)
      ∧ (j2 ≠ j →
        ScaledEpilogue.eval
            (ScaledEpilogue.prepare_args (T sa) (T (sb.set j v))) acc i2 j2
          = ScaledEpilogue.eval
              (ScaledEpilogue.prepare_args (T sa) (T sb)) acc i2 j2) := by
  intro sa sb acc v i j i2 j2 ha hb
  have ha' : (T sa).numel ≠ 1 := by simpa [T, Tensor.numel] using ha
  have hb' : (T sb).numel ≠ 1 := by simpa [T, Tensor.numel] using hb
  have haset : (T (sa.set i v)).numel ≠ 1 := by
    simpa [T, Tensor.numel] using ha
  have hbset : (T (sb.set j v)).numel ≠ 1 := by
    simpa [T, Tensor.numel] using hb
  constructor
  · intro hne
    rw [scaled_eval_prepare_vec _ _ _ _ _ haset hb',
      scaled_eval_prepare_vec _ _ _ _ _ ha' hb']
    simp [T, List.getD_eq_getElem?_getD,
      @List.getElem?_set_ne ℚ sa i i2 (fun hh => hne hh.symm) v]
  · intro hne
    rw [scaled_eval_prepare_vec _ _ _ _ _ ha' hbset,
      scaled_eval_prepare_vec _ _ _ _ _ ha' hb']
    simp [T, List.getD_eq_getElem?_getD,
      @List.getElem?_set_ne ℚ sb j j2 (fun hh => hne hh.symm) v]

/-- Witness for claim C4: overwriting `scaleA` entry 0 leaves row 1
unchanged, and overwriting `scaleB` entry 0 leaves column 1 unchanged, on
concrete operands. -/
theorem scale_single_entry_frame_witness :
    (ScaledEpilogue.eval
        (ScaledEpilogue.prepare_args (T ([2, 3].set 0 5)) (T [10, 100])) accQ 1 0
      = ScaledEpilogue.eval
          (ScaledEpilogue.prepare_args (T [2, 3]) (T [10, 100])) accQ 1 0)
    ∧ (ScaledEpilogue.eval
        (ScaledEpilogue.prepare_args (T [2, 3]) (T ([10, 100].set 0 5))) accQ 1 1
      = ScaledEpilogue.eval
          (ScaledEpilogue.prepare_args (T [2, 3]) (T [10, 100])) accQ 1 1) :=
  ⟨(scale_single_entry_frame [2, 3] [10, 100] accQ 5 0 0 1 0
      (by decide) (by decide)).1 (by decide),
   (scale_single_entry_frame [2, 3] [10, 100] accQ 5 0 0 1 1
      (by decide) (by decide)).2 (by decide)⟩

/-- Claim C6: identity law: with both scales scalar of value 1, bias the
all-zero vector and `Ls` the all-one vector (of the channel count `n`,
the coordinate `j` in range), every variant's output equals the
accumulator entry (numeric conversion to the output element type being
modelled as exact). -/
theorem identity_law_all_variants :
    ∀ (n : Nat) (acc : Nat → Nat → ℚ) (i j : Nat), j < n →
      ScaledEpilogue.eval
          (ScaledEpilogue.prepare_args (T [1]) (T [1])) acc i j = acc i j
      ∧ ScaledEpilogueBias.eval
          (ScaledEpilogueBias.prepare_args (T [1]) (T [1])
            (T (List.replicate n 0))) acc i j = acc i j
      ∧ ScaledEpilogueLs.eval
          (ScaledEpilogueLs.prepare_args (T [1]) (T [1])
            (T (List.replicate n 1))) acc i j = acc i j
      ∧ ScaledEpilogueBiasLs.eval
          (ScaledEpilogueBiasLs.prepare_args (T [1]) (T [1])
            (T (List.replicate n 0)) (T (List.replicate n 1))) acc i j
          = acc i j := by
  intro n acc i j hj
  have h0 : (List.replicate n (0 : ℚ))[j]?.getD 0 = 0 := by simp
  have h1 : (List.replicate n (1 : ℚ))[j]?.getD 0 = 1 := by simp [hj]
  refine ⟨?_, ?_, ?_, ?_⟩ <;>
    simp [ScaledEpilogue.eval, ScaledEpilogueBias.eval, ScaledEpilogueLs.eval,
      ScaledEpilogueBiasLs.eval, ScaledEpilogue.prepare_args,
      ScaledEpilogueBias.prepare_args, ScaledEpilogueLs.prepare_args,
      ScaledEpilogueBiasLs.prepare_args, args_from_tensor_ColOrScalar,
      args_from_tensor_RowOrScalar, args_from_tensor_RowLoad,
      ColOrScalarArgs.load, RowOrScalarArgs.load, RowLoadArgs.load,
      T, Tensor.numel, h0, h1]

/-- Witness for claim C6: the identity law at channel count 2,
coordinate (0, 1), on a concrete tile. -/
theorem identity_law_all_variants_witness :
    ScaledEpilogue.eval
        (ScaledEpilogue.prepare_args (T [1]) (T [1])) accQ 0 1 = accQ 0 1
    ∧ ScaledEpilogueBias.eval
        (ScaledEpilogueBias.prepare_args (T [1]) (T [1])
          (T (List.replicate 2 0))) accQ 0 1 = accQ 0 1
    ∧ ScaledEpilogueLs.eval
        (ScaledEpilogueLs.prepare_args (T [1]) (T [1])
          (T (List.replicate 2 1))) accQ 0 1 = accQ 0 1
    ∧ ScaledEpilogueBiasLs.eval
        (ScaledEpilogueBiasLs.prepare_args (T [1]) (T [1])
          (T (List.replicate 2 0)) (T (List.replicate 2 1))) accQ 0 1
        = accQ 0 1 :=
  identity_law_all_variants 2 accQ 0 1 (by decide)

/-- Claim C7: for all accumulator tiles and scale operands,
`ScaledEpilogueBias` with an all-zero bias vector evaluates identically
to `ScaledEpilogue`, and `ScaledEpilogueLs` with an all-one multiplier
vector (coordinate in range) evaluates identically to `ScaledEpilogue`. -/
theorem zero_bias_one_ls_match_scaled :
    ∀ (ta tb : Tensor) (acc : Nat → Nat → ℚ) (i j n : Nat),
      (ScaledEpilogueBias.eval
          (ScaledEpilogueBias.prepare_args ta tb (T (List.replicate n 0))) acc i j
        = ScaledEpilogue.eval (ScaledEpilogue.prepare_args ta tb) acc i j)
      ∧ (j < n →
        ScaledEpilogueLs.eval
            (ScaledEpilogueLs.prepare_args ta tb (T (List.replicate n 1))) acc i j
          = ScaledEpilogue.eval (ScaledEpilogue.prepare_args ta tb) acc i j) := by
  intro ta tb acc i j n
  have h0 : (List.replicate n (0 : ℚ))[j]?.getD 0 = 0 := by simp
  constructor
  · simp [ScaledEpilogue.eval, ScaledEpilogueBias.eval,
      ScaledEpilogue.prepare_args, ScaledEpilogueBias.prepare_args,
      args_from_tensor_RowLoad, RowLoadArgs.load, T, h0]
  · intro hj
    have h1 : (List.replicate n (1 : ℚ))[j]?.getD 0 = 1 := by simp [hj]
    simp [ScaledEpilogue.eval, ScaledEpilogueLs.eval,
      ScaledEpilogue.prepare_args, ScaledEpilogueLs.prepare_args,
      args_from_tensor_RowLoad, RowLoadArgs.load, T, h1]

/-- Witness for claim C7: both refinements at concrete scales and tile,
channel count 2, coordinate (1, 0). -/
theorem zero_bias_one_ls_match_scaled_witness :
    (ScaledEpilogueBias.eval
        (ScaledEpilogueBias.prepare_args (T [2, 3]) (T [10, 100])
          (T (List.replicate 2 0))) accQ 1 0
      = ScaledEpilogue.eval
          (ScaledEpilogue.prepare_args (T [2, 3]) (T [10, 100])) accQ 1 0)
    ∧ (ScaledEpilogueLs.eval
        (ScaledEpilogueLs.prepare_args (T [2, 3]) (T [10, 100])
          (T (List.replicate 2 1))) accQ 1 0
      = ScaledEpilogue.eval
          (ScaledEpilogue.prepare_args (T [2, 3]) (T [10, 100])) accQ 1 0) :=
  ⟨(zero_bias_one_ls_match_scaled (T [2, 3]) (T [10, 100]) accQ 1 0 2).1,
   (zero_bias_one_ls_match_scaled (T [2, 3]) (T [10, 100]) accQ 1 0 2).2
     (by decide)⟩

/-- Claim C8: `prepare_args` of every variant is a pure function of the
operand handles: two tensors agreeing on their buffer (data pointer and
element count) yield identical argument blocks even when every other
tensor attribute differs, and the blocks bind the operand pointers
directly (no copy, no other state consulted). -/
theorem prepare_args_handle_determined :
    ∀ (ta ta2 tb tb2 tbias tbias2 tls tls2 : Tensor),
      ta.data = ta2.data → tb.data = tb2.data →
      tbias.data = tbias2.data → tls.data = tls2.data →
      (ScaledEpilogue.prepare_args ta tb = ScaledEpilogue.prepare_args ta2 tb2
       ∧ ScaledEpilogueBias.prepare_args ta tb tbias
           = ScaledEpilogueBias.prepare_args ta2 tb2 tbias2
       ∧ ScaledEpilogueLs.prepare_args ta tb tls
           = ScaledEpilogueLs.prepare_args ta2 tb2 tls2
       ∧ ScaledEpilogueBiasLs.prepare_args ta tb tbias tls
           = ScaledEpilogueBiasLs.prepare_args ta2 tb2 tbias2 tls2)
      ∧ ((ScaledEpilogue.prepare_args ta tb).a_args.ptr = ta.data
       ∧ (ScaledEpilogue.prepare_args ta tb).evt0_args.b_args.ptr = tb.data
       ∧ (ScaledEpilogueBiasLs.prepare_args ta tb tbias tls).evt1_args.bias_args.ptr
           = tbias.data
       ∧ (ScaledEpilogueBiasLs.prepare_args ta tb tbias tls).ls_args.ptr
           = tls.data) := by
  intro ta ta2 tb tb2 tbias tbias2 tls tls2 h1 h2 h3 h4
  refine ⟨⟨?_, ?_, ?_, ?_⟩, rfl, rfl, rfl, rfl⟩ <;>
    simp [ScaledEpilogue.prepare_args, ScaledEpilogueBias.prepare_args,
      ScaledEpilogueLs.prepare_args, ScaledEpilogueBiasLs.prepare_args,
      args_from_tensor_ColOrScalar, args_from_tensor_RowOrScalar,
      args_from_tensor_RowLoad, Tensor.numel, h1, h2, h3, h4]

/-- Witness for claim C8: handles with equal buffers but different
metadata yield identical argument blocks. -/
theorem prepare_args_handle_determined_witness :
    ScaledEpilogueBiasLs.prepare_args
        ⟨[2, 3], 5⟩ ⟨[10, 100], 6⟩ ⟨[1, 1], 7⟩ ⟨[2, 1], 8⟩
      = ScaledEpilogueBiasLs.prepare_args
          ⟨[2, 3], 9⟩ ⟨[10, 100], 10⟩ ⟨[1, 1], 11⟩ ⟨[2, 1], 12⟩ :=
  (prepare_args_handle_determined
    ⟨[2, 3], 5⟩ ⟨[2, 3], 9⟩ ⟨[10, 100], 6⟩ ⟨[10, 100], 10⟩
    ⟨[1, 1], 7⟩ ⟨[1, 1], 11⟩ ⟨[2, 1], 8⟩ ⟨[2, 1], 12⟩
    rfl rfl rfl rfl).1.2.2.2

/-- Claim C10: for the scalar-or-broadcast scale operands, every element
count other than exactly 1 — including 0 — selects vector mode: the data
pointer is captured and the vector flag is set, so a zero-element scale
tensor is bound as a vector operand, not treated as scalar or absent. -/
theorem nonunit_elementCount_selects_vector_mode :
    ∀ (t : Tensor), t.numel ≠ 1 →
      args_from_tensor_ColOrScalar t = ⟨t.data, true⟩
      ∧ args_from_tensor_RowOrScalar t = ⟨t.data, true⟩ := by
  intro t h
  constructor <;>
    simp [args_from_tensor_ColOrScalar, args_from_tensor_RowOrScalar,
      bne_iff_ne, h]

/-- Witness for claim C10: the zero-element tensor is bound in vector
mode. -/
theorem nonunit_elementCount_selects_vector_mode_witness :
    args_from_tensor_ColOrScalar (T []) = ⟨[], true⟩
    ∧ args_from_tensor_RowOrScalar (T []) = ⟨[], true⟩ :=
  nonunit_elementCount_selects_vector_mode (T []) (by decide)

end c3x
end lightllm
